import Mathlib

/-!
Shallow embedding of `phyloslurm/start_phylobayes.py` (class `PBStarter` and
`main`), a starter/governor script for Phylobayes MCMC chains.  Strings are
modelled with Lean `String`, Python `float` values with `Rat`, the filesystem
and the outputs of the external programs (`sacct`, `bpcomp`, `tracecomp`)
with explicit environment records, and Python exceptions / `sys.exit` with
explicit outcome values.
-/

namespace PB

/-- Python `str.rstrip()`: drop trailing whitespace. -/
def pyRstrip (s : String) : String :=
  String.mk ((s.toList.reverse.dropWhile Char.isWhitespace).reverse)

/-- Does the second list start with the first one? -/
def startsWithL : List Char → List Char → Bool
  | [], _ => true
  | _ :: _, [] => false
  | p :: ps, c :: cs => p == c && startsWithL ps cs

/-- Python `str.startswith(pat)`. -/
def pyStartsWith (s pat : String) : Bool :=
  startsWithL pat.toList s.toList

/-- Substring occurrence test on character lists. -/
def hasSubL (pat : List Char) : List Char → Bool
  | [] => startsWithL pat []
  | c :: cs => startsWithL pat (c :: cs) || hasSubL pat cs

/-- Python `s.find(pat) != -1`: `pat` occurs as a substring of `s`. -/
def pyContains (s pat : String) : Bool :=
  hasSubL pat.toList s.toList

/-- Split a character list at every newline character; always nonempty. -/
def splitOnNl : List Char → List (List Char)
  | [] => [[]]
  | c :: cs =>
    if c = '\n' then [] :: splitOnNl cs
    else
      match splitOnNl cs with
      | [] => [[c]]
      | p :: ps => (c :: p) :: ps

/-- Python `str.splitlines()` for newline-separated text. -/
def pySplitLines (s : String) : List String :=
  if s.toList = [] then []
  else
    let parts := (splitOnNl s.toList).map (fun l => String.mk l)
    if s.toList.getLast? = some '\n' then parts.dropLast else parts

/-- First line of a process output, `""` when the output has no lines
(Python `out.splitlines()[0]` guarded by a length check). -/
def firstLine (out : String) : String :=
  (pySplitLines out).headD ""

/-- Number of lines of a file's content, as Python's
`sum(1 for line in open(f))` counts them. -/
def pyLineCount (s : String) : Nat :=
  (pySplitLines s).length

mutual

/-- Helper for `pySplitWS`: reading a token (accumulated reversed in `tok`). -/
def pySplitWSGo (tok : List Char) : List Char → List String
  | [] => [String.mk tok.reverse]
  | c :: cs =>
    if c.isWhitespace then String.mk tok.reverse :: pySplitWSSkip cs
    else pySplitWSGo (c :: tok) cs

/-- Helper for `pySplitWS`: inside a whitespace run. -/
def pySplitWSSkip : List Char → List String
  | [] => [""]
  | c :: cs => if c.isWhitespace then pySplitWSSkip cs else pySplitWSGo [c] cs

end

/-- Python `re.split("\\s+", s)`: split at maximal whitespace runs; a leading
(trailing) run contributes a leading (trailing) empty field.  The result is
never empty. -/
def pySplitWS (s : String) : List String :=
  pySplitWSGo [] s.toList

/-- Numeric value of a digit list (most significant first). -/
def digitsVal (l : List Char) : Nat :=
  l.foldl (fun a c => a * 10 + (c.toNat - 48)) 0

/-- Python `float(s)` restricted to plain decimal literals (optional sign,
digits, optional fractional part); `none` models the `ValueError` raised on
any other string. -/
def pyFloat? (s : String) : Option Rat :=
  let l := s.toList
  let sign : Int := if l.headD ' ' = '-' then -1 else 1
  let l := if l.headD ' ' = '-' ∨ l.headD ' ' = '+' then l.tail else l
  let ip := l.takeWhile Char.isDigit
  let rest := l.dropWhile Char.isDigit
  match rest with
  | [] => if ip = [] then none else some (mkRat (sign * (digitsVal ip : Int)) 1)
  | '.' :: fr =>
    if fr.all Char.isDigit ∧ (ip ≠ [] ∨ fr ≠ []) then
      some (mkRat (sign * ((digitsVal ip) * 10 ^ fr.length + digitsVal fr : Nat)) (10 ^ fr.length))
    else none
  | _ => none

/-- `os.path.split` (posix): split at the last slash; trailing slashes are
stripped from the head unless the head consists only of slashes. -/
def os_path_split (p : String) : String × String :=
  let rl := p.toList.reverse
  let tl := (rl.takeWhile (fun c => c ≠ '/')).reverse
  let headRaw := (rl.dropWhile (fun c => c ≠ '/')).reverse
  let headStr :=
    if headRaw.all (fun c => c = '/') then headRaw
    else (headRaw.reverse.dropWhile (fun c => c = '/')).reverse
  (String.mk headStr, String.mk tl)

/-- `os.path.splitext` for a bare file name (no directory separator):
split at the last dot unless every character before it is a dot. -/
def os_path_splitext (p : String) : String × String :=
  let rl := p.toList.reverse
  let after := rl.takeWhile (fun c => c ≠ '.')
  match rl.dropWhile (fun c => c ≠ '.') with
  | [] => (p, "")
  | _ :: before =>
    if before.reverse.all (fun c => c = '.') then (p, "")
    else (String.mk before.reverse, String.mk ('.' :: after.reverse))

/-- `PBStarter.create_tokens_from_filepath`: directory part, file name, and
file name without extension. -/
def create_tokens_from_filepath (filepath : String) : String × String × String :=
  let dirbase := (os_path_split filepath).1
  let filename := (os_path_split filepath).2
  let basename := (os_path_splitext filename).1
  (dirbase, filename, basename)

/-- Argument normalization inside `generate_output_filename`:
`re.sub(r"-", "_", re.sub(r"\\s+", "", pb_args))`. -/
def pb_postfix_of (pb_args : String) : String :=
  String.mk ((pb_args.toList.filter (fun c => !c.isWhitespace)).map
    (fun c => if c = '-' then '_' else c))

/-- `PBStarter.generate_output_filename`: output name from the alignment
path, the normalized arguments, the process count and the chain number
(`chain_nr = 0` omits the `_chain<i>` suffix). -/
def generate_output_filename (filepath pb_args : String) (processes chain_nr : Nat) : String :=
  let dirbase := (create_tokens_from_filepath filepath).1
  let basename := (create_tokens_from_filepath filepath).2.2
  let base := basename ++ pb_postfix_of pb_args ++ "_" ++ Nat.repr processes
  let return_path := if dirbase ≠ "" then dirbase ++ "/" ++ base else base
  if chain_nr = 0 then return_path else return_path ++ "_chain" ++ Nat.repr chain_nr

/-- `pb_command` computed at the top of `PBStarter.start_pb_jobs`. -/
def pb_command (processes : Nat) : String :=
  (if processes > 1 then "pb" ++ "_mpi" else "pb") ++ " "

/-- The `srun` invocation issued by `PBStarter.start_pb_jobs` for chain `i`,
given which paths exist on the filesystem (`ex`): a resume command when
`<name>.trace` exists, otherwise a fresh start passing `pb_args` and the
alignment file. -/
def start_command (ex : String → Bool) (infile pb_args : String) (processes i : Nat) : String :=
  let nm := generate_output_filename infile pb_args processes i
  if ex (nm ++ ".trace") then
    "srun --cpu_bind=v,threads -c 1 -n " ++ Nat.repr processes ++ " -o " ++ nm ++ ".out "
      ++ pb_command processes ++ nm ++ " &"
  else
    "srun --cpu_bind=v,threads -c 1 -n " ++ Nat.repr processes ++ " -o " ++ nm ++ ".out "
      ++ pb_command processes ++ pb_args ++ " -d " ++ infile ++ " " ++ nm ++ " &"

/-- Result of the per-chain srun confirmation wait in `start_pb_jobs`:
either the subtask was seen by `sacct` at some attempt, or the script
called `sys.exit` with the given code. -/
inductive ConfirmResult where
  | started : Nat → ConfirmResult
  | exited : Nat → ConfirmResult
deriving DecidableEq

/-- One iteration of the confirmation `while` loop of `start_pb_jobs`.
`attempt` is the value of `waited` after the increment in the current
iteration; `remaining = max_wait + 1 - attempt` counts how many further
iterations may still begin before `waited > max_wait` triggers
`sys.exit(3)`.  `status k` is the stdout of the `sacct` call of attempt
`k`. -/
def confirm_go (status : Nat → String) (attempt : Nat) : Nat → ConfirmResult
  | 0 =>
    if pyRstrip (firstLine (status attempt)) ≠ "" then .started attempt else .exited 3
  | r + 1 =>
    if pyRstrip (firstLine (status attempt)) ≠ "" then .started attempt
    else confirm_go status (attempt + 1) r

/-- The whole confirmation wait (`max_wait` is 60 in the source). -/
def confirm_loop (status : Nat → String) (max_wait : Nat) : ConfirmResult :=
  confirm_go status 1 max_wait

/-- The `PBStarter` threshold attributes (set from the command line in
`main`).  Floats are modelled as rationals, the two sample sizes are the
integers `MAX_SAMPLE_SIZE` and `MIN_SAMPLE_SIZE`. -/
structure Params where
  BPCOMP_MAXDIFF : Rat
  TRCOMP_EFFSIZE : Rat
  TRCOMP_RELDIFF : Rat
  MAX_SAMPLE_SIZE : Nat
  MIN_SAMPLE_SIZE : Nat

/-- External world of one `check_convergence` call: the (composite) Slurm
job id computed from the environment variables, the stdout of the `sacct`
query for subtask `k` (0-based), the filesystem (`none` = file missing,
opening raises `FileNotFoundError`), and the stdout of the `bpcomp` and
`tracecomp` invocations of this cycle. -/
structure ConvEnv where
  slurm_job_id : Option String
  sacctOut : Nat → String
  fs : String → Option String
  bpcompOut : String
  trcompOut : String

/-- Guard `not slurm_job_id is None and slurm_job_id != "_"` used by both
the liveness check and the confirmation wait. -/
def slurm_active (env : ConvEnv) : Bool :=
  match env.slurm_job_id with
  | some jid => jid ≠ "_"
  | none => false

/-- Classification of one chain by the liveness check of
`check_convergence`: the first `sacct` output line is non-blank and
contains `RUNNING` (Python `first_line.find("RUNNING") != -1`). -/
def chain_is_running (out : String) : Bool :=
  pyRstrip (firstLine out) ≠ "" && pyContains (firstLine out) "RUNNING"

/-- `every_chain_is_running` after the liveness `for` loop. -/
def liveness_ok (env : ConvEnv) (chains : Nat) : Bool :=
  (List.range chains).all (fun k => chain_is_running (env.sacctOut k))

/-- Sample-counting loop of `check_convergence` over the chain indices
`k+1` still to visit.  Returns the collected line counts (`none` when an
absent `.trace` file raised `FileNotFoundError` and aborted the loop)
together with the `stoppb` commands issued for chains whose count exceeds
`MAX_SAMPLE_SIZE`. -/
def count_go (env : ConvEnv) (P : Params) (infile pb_args : String) (processes : Nat) :
    List Nat → List Nat → List String → Option (List Nat) × List String
  | [], counts, stops => (some counts, stops)
  | k :: ks, counts, stops =>
    match env.fs (generate_output_filename infile pb_args processes (k + 1) ++ ".trace") with
    | none => (none, stops)
    | some content =>
      let n := pyLineCount content
      let stops' :=
        if P.MAX_SAMPLE_SIZE < n then
          stops ++ ["stoppb " ++ generate_output_filename infile pb_args processes (k + 1)]
        else stops
      count_go env P infile pb_args processes ks (counts ++ [n]) stops'

/-- The whole sample-counting phase for chains `1..chains`. -/
def count_phase (env : ConvEnv) (P : Params) (infile pb_args : String)
    (chains processes : Nat) : Option (List Nat) × List String :=
  count_go env P infile pb_args processes (List.range chains) [] []

/-- One line of the `bpcomp` stdout loop: a line starting with `maxdiff`
sets `bp_res` to 1 when its last whitespace-separated field parses to a
float `≤ BPCOMP_MAXDIFF`; a non-numeric field raises (`none`). -/
def BP_step (t : Rat) (acc : Option Nat) (line : String) : Option Nat :=
  match acc with
  | none => none
  | some bp =>
    if pyStartsWith line "maxdiff" then
      match (pySplitWS (pyRstrip line)).getLast? with
      | none => none
      | some f =>
        match pyFloat? f with
        | none => none
        | some v => some (if v ≤ t then 1 else bp)
    else some bp

/-- `bp_res` after the `bpcomp` stdout loop. -/
def BP_res (lines : List String) (t : Rat) : Option Nat :=
  lines.foldl (BP_step t) (some 0)

/-- One line of the `tracecomp` stdout loop, updating
`(tr_res, tr_line_number)`.  Lines with at most one field are ignored, a
first field `name` is the skipped header; otherwise the line counter is
incremented and each of the two sub-checks (`fields[1] >= TRCOMP_EFFSIZE`,
`fields[2] <= TRCOMP_RELDIFF`) increments `tr_res` when satisfied.  A
missing `fields[2]` or a non-numeric field raises (`none`). -/
def TR_step (effT relT : Rat) (acc : Option (Nat × Nat)) (line : String) : Option (Nat × Nat) :=
  match acc with
  | none => none
  | some (tr, ln) =>
    match pySplitWS (pyRstrip line) with
    | f0 :: f1 :: rest =>
      if f0 = "name" then some (tr, ln)
      else
        let ln' := ln + 1
        match pyFloat? f1 with
        | none => none
        | some e =>
          let tr1 := if effT ≤ e then tr + 1 else tr
          match rest with
          | [] => none
          | f2 :: _ =>
            match pyFloat? f2 with
            | none => none
            | some rd => some (if rd ≤ relT then tr1 + 1 else tr1, ln')
    | _ => some (tr, ln)

/-- `(tr_res, tr_line_number)` after the `tracecomp` stdout loop. -/
def TR_stats (lines : List String) (effT relT : Rat) : Option (Nat × Nat) :=
  lines.foldl (TR_step effT relT) (some (0, 0))

/-- The `.run`-file loop at the end of `check_convergence`: `all_running`
becomes true when ANY chain's `.run` file reads `"1"`; a missing `.run`
file raises (`none`). -/
def run_go (env : ConvEnv) (infile pb_args : String) (processes : Nat) :
    List Nat → Bool → Option Bool
  | [], acc => some acc
  | k :: ks, acc =>
    match env.fs (generate_output_filename infile pb_args processes (k + 1) ++ ".run") with
    | none => none
    | some content =>
      run_go env infile pb_args processes ks (acc || content = "1")

/-- `all_running` over chains `1..chains`. -/
def run_phase (env : ConvEnv) (infile pb_args : String) (chains processes : Nat) : Option Bool :=
  run_go env infile pb_args processes (List.range chains) false

/-- How one `check_convergence` call ends: `sys.exit code`, a plain
`return`, or an uncaught Python exception. -/
inductive Outcome where
  | exited : Nat → Outcome
  | returned : Outcome
  | raised : Outcome
deriving DecidableEq

/-- Observable result of `check_convergence`: how it ended and the
`stoppb` commands it issued, in order. -/
structure CCResult where
  outcome : Outcome
  stops : List String
deriving DecidableEq

/-- `PBStarter.check_convergence`: liveness check (exit 4 on a dead chain
under Slurm), sample counting with per-chain `stoppb` above the cap,
then — when the minimum count reaches `MIN_SAMPLE_SIZE` — the `bpcomp` /
`tracecomp` decision `bp_res == 1 and tr_res == tr_line_number`, which
stops every chain and exits 0 when it holds; otherwise the hard-cap exit
and the `.run`-file fallback, reached only below `MIN_SAMPLE_SIZE`. -/
def check_convergence (env : ConvEnv) (P : Params) (infile pb_args : String)
    (chains processes : Nat) : CCResult :=
  if slurm_active env && !liveness_ok env chains then ⟨.exited 4, []⟩
  else
    match count_phase env P infile pb_args chains processes with
    | (none, stops) => ⟨.raised, stops⟩
    | (some counts, stops) =>
      match counts.min? with
      | none => ⟨.raised, stops⟩
      | some min_samples =>
        if P.MIN_SAMPLE_SIZE ≤ min_samples then
          match BP_res (pySplitLines env.bpcompOut) P.BPCOMP_MAXDIFF with
          | none => ⟨.raised, stops⟩
          | some bp_res =>
            match TR_stats (pySplitLines env.trcompOut) P.TRCOMP_EFFSIZE P.TRCOMP_RELDIFF with
            | none => ⟨.raised, stops⟩
            | some (tr_res, tr_line_number) =>
              if bp_res = 1 ∧ tr_res = tr_line_number then
                ⟨.exited 0, stops ++ (List.range chains).map
                  (fun k => "stoppb " ++ generate_output_filename infile pb_args processes (k + 1))⟩
              else ⟨.returned, stops⟩
        else if P.MAX_SAMPLE_SIZE ≤ min_samples then ⟨.exited 0, stops⟩
        else
          match run_phase env infile pb_args chains processes with
          | none => ⟨.raised, stops⟩
          | some all_running => if !all_running then ⟨.exited 0, stops⟩ else ⟨.returned, stops⟩

/-- Process-count adjustment in `main`: when `SLURM_NTASKS` is set (to
`n`) and the requested process count differs from `chains * n`, it is
replaced by `int(int(n)/chains)`. -/
def adjust_processes (processes chains : Nat) (slurm_ntasks : Option Nat) : Nat :=
  match slurm_ntasks with
  | none => processes
  | some n => if processes ≠ chains * n then n / chains else processes

/-- A `tracecomp` line the loop ignores: at most one whitespace-separated
field, or the `name` header. -/
abbrev trSkipLine (line : String) : Prop :=
  (pySplitWS (pyRstrip line)).length ≤ 1 ∨ (pySplitWS (pyRstrip line)).head? = some "name"

/-- Thresholds of the spec's Scenario A (defaults), with the sample-size
window scaled down (3-line trace files against `MIN_SAMPLE_SIZE = 2`) so
that the convergence evaluation branch is reached. -/
def paramsA : Params :=
  { BPCOMP_MAXDIFF := mkRat 3 10
  , TRCOMP_EFFSIZE := 50
  , TRCOMP_RELDIFF := mkRat 3 10
  , MAX_SAMPLE_SIZE := 100
  , MIN_SAMPLE_SIZE := 2 }

/-- Scenario-A environment: no scheduler, two chains with existing trace
files, a passing `maxdiff` report and two parameter rows that each pass
both sub-checks (`effsize 400`, `rel_diff 0.05`). -/
def envA : ConvEnv :=
  { slurm_job_id := none
  , sacctOut := fun _ => ""
  , fs := fun p =>
      if p = "aln_cat_gtr_1_chain1.trace" ∨ p = "aln_cat_gtr_1_chain2.trace" then
        some "s\ns\ns"
      else none
  , bpcompOut := "maxdiff    0.05"
  , trcompOut := "name  effsize  rel_diff\nalpha  400  0.05\nbeta  400  0.05" }

/-- Environment for the hard-cap counterexample: ten-line trace files, a
failing `maxdiff`, no parameter rows. -/
def envC2 : ConvEnv :=
  { envA with
    fs := fun p =>
      if p = "aln_cat_gtr_1_chain1.trace" ∨ p = "aln_cat_gtr_1_chain2.trace" then
        some "s\ns\ns\ns\ns\ns\ns\ns\ns\ns"
      else none
  , bpcompOut := "maxdiff    0.9"
  , trcompOut := "" }

/-- Thresholds for the hard-cap counterexample: the ten-line traces put
the minimum sample count exactly at `MAX_SAMPLE_SIZE = 10` and above
`MIN_SAMPLE_SIZE = 5`, so both size conditions of claim C2 hold. -/
def paramsC2 : Params :=
  { paramsA with MAX_SAMPLE_SIZE := 10, MIN_SAMPLE_SIZE := 5 }

/-- Environment where every file is missing. -/
def envC3 : ConvEnv :=
  { envA with fs := fun _ => none }

/-- Scenario-A environment with a non-numeric `maxdiff` field. -/
def envC4 : ConvEnv :=
  { envA with bpcompOut := "maxdiff    NA" }

/-- `sacct` behaviour that stays silent for the first 60 attempts and
reports a status only at attempt 61. -/
def statusC7 : Nat → String :=
  fun k => if k ≤ 60 then "" else "RUNNING"

/-- An `sacct` status line that contains `RUNNING` as a substring but is
not the bare running marker. -/
def lineC8 : String := "123.0   RUNNING   node1"

/-- Scenario-A environment under Slurm whose only chain status is
`COMPLETED`, i.e. not running. -/
def envC8 : ConvEnv :=
  { envA with slurm_job_id := some "77", sacctOut := fun _ => "77.0  COMPLETED" }

/-- Scenario-A environment whose `tracecomp` output has only the header
line and therefore no parseable parameter row. -/
def envC10 : ConvEnv :=
  { envA with trcompOut := "name  effsize  rel_diff" }

theorem TR_step_skip (effT relT : Rat) (acc : Option (Nat × Nat)) (line : String)
    (h : trSkipLine line) : TR_step effT relT acc line = acc := by
  match acc with
  | none => rfl
  | some (tr, ln) =>
    rcases hf : pySplitWS (pyRstrip line) with _ | ⟨f0, _ | ⟨f1, rest⟩⟩
    · simp [TR_step, hf]
    · simp [TR_step, hf]
    · rcases h with hlen | hhead
      · rw [hf] at hlen; simp at hlen
      · rw [hf] at hhead
        simp only [List.head?_cons, Option.some.injEq] at hhead
        simp [TR_step, hf, hhead]

theorem TR_foldl_skip (effT relT : Rat) :
    ∀ (lines : List String) (acc : Option (Nat × Nat)),
      (∀ l ∈ lines, trSkipLine l) → lines.foldl (TR_step effT relT) acc = acc
  | [], _, _ => rfl
  | l :: ls, acc, h => by
    rw [List.foldl_cons, TR_step_skip _ _ _ _ (h l (List.mem_cons_self _ _))]
    exact TR_foldl_skip effT relT ls acc (fun x hx => h x (List.mem_cons_of_mem _ hx))

/-- With no parseable parameter row, both loop counters stay at 0. -/
theorem TR_stats_skip (effT relT : Rat) (lines : List String)
    (h : ∀ l ∈ lines, trSkipLine l) : TR_stats lines effT relT = some (0, 0) :=
  TR_foldl_skip effT relT lines (some (0, 0)) h

theorem BP_step_skip (t : Rat) (acc : Option Nat) (line : String)
    (h : pyStartsWith line "maxdiff" = false) : BP_step t acc line = acc := by
  match acc with
  | none => rfl
  | some bp => simp [BP_step, h]

theorem BP_foldl_skip (t : Rat) :
    ∀ (lines : List String) (acc : Option Nat),
      (∀ l ∈ lines, pyStartsWith l "maxdiff" = false) → lines.foldl (BP_step t) acc = acc
  | [], _, _ => rfl
  | l :: ls, acc, h => by
    rw [List.foldl_cons, BP_step_skip _ _ _ (h l (List.mem_cons_self _ _))]
    exact BP_foldl_skip t ls acc (fun x hx => h x (List.mem_cons_of_mem _ hx))

/-- A `bpcomp` report with no `maxdiff` line leaves `bp_res` at 0. -/
theorem BP_res_no_maxdiff (t : Rat) (lines : List String)
    (h : ∀ l ∈ lines, pyStartsWith l "maxdiff" = false) : BP_res lines t = some 0 :=
  BP_foldl_skip t lines (some 0) h

/-- A missing `.trace` file of any chain still to visit aborts the
sample-counting loop with an exception. -/
theorem count_go_missing (env : ConvEnv) (P : Params) (infile pb_args : String)
    (processes : Nat) (k : Nat)
    (hmiss : env.fs (generate_output_filename infile pb_args processes (k + 1) ++ ".trace")
      = none) :
    ∀ (ks : List Nat) (counts : List Nat) (stops : List String), k ∈ ks →
      (count_go env P infile pb_args processes ks counts stops).1 = none
  | [], _, _, hk => absurd hk (List.not_mem_nil k)
  | k' :: ks, counts, stops, hk => by
    rcases List.mem_cons.mp hk with rfl | hk'
    · simp [count_go, hmiss]
    · cases hfs : env.fs (generate_output_filename infile pb_args processes (k' + 1) ++ ".trace")
        with
      | none => simp [count_go, hfs]
      | some content =>
        simp only [count_go, hfs]
        exact count_go_missing env P infile pb_args processes k hmiss ks _ _ hk'

/-- Timeout characterization of the confirmation loop: starting at attempt
`a` with `r` further iterations allowed, the loop ends in `sys.exit(3)`
exactly when every attempt in `[a, a + r]` sees a blank first line. -/
theorem confirm_go_exit_iff (status : Nat → String) :
    ∀ (r a : Nat), confirm_go status a r = .exited 3 ↔
      ∀ k, a ≤ k → k ≤ a + r → pyRstrip (firstLine (status k)) = ""
  | 0, a => by
    constructor
    · intro hloop k hk1 hk2
      have hk : k = a := by omega
      subst hk
      by_cases h : pyRstrip (firstLine (status k)) = ""
      · exact h
      · simp [confirm_go, h] at hloop
    · intro hall
      simp [confirm_go, hall a le_rfl (by omega)]
  | r + 1, a => by
    by_cases h : pyRstrip (firstLine (status a)) = ""
    · rw [show confirm_go status a (r + 1) = confirm_go status (a + 1) r by
        simp [confirm_go, h]]
      rw [confirm_go_exit_iff status r (a + 1)]
      constructor
      · intro hall k hk1 hk2
        rcases Nat.eq_or_lt_of_le hk1 with rfl | hlt
        · exact h
        · exact hall k hlt (by omega)
      · intro hall k hk1 hk2
        exact hall k (by omega) (by omega)
    · simp only [confirm_go, if_pos h, ne_eq, h, not_false_eq_true, if_true]
      constructor
      · intro hc; exact absurd hc (by simp)
      · intro hall; exact absurd (hall a le_rfl (by omega)) h

/-- C1: on the spec's Scenario A (a `maxdiff` passing its threshold and two
parameter rows each passing both sub-checks, so the pass counter is `4 =
2 × 2`), `check_convergence` does NOT declare convergence: the source
compares `tr_res == tr_line_number` (4 ≠ 2), returns, and issues no stop
command — contradicting the claimed decision rule, the scenario's expected
outcome, and the program's own stated convergence criteria. -/
theorem c1_scenarioA_code_bug :
    BP_res (pySplitLines envA.bpcompOut) paramsA.BPCOMP_MAXDIFF = some 1 ∧
    TR_stats (pySplitLines envA.trcompOut) paramsA.TRCOMP_EFFSIZE paramsA.TRCOMP_RELDIFF
      = some (4, 2) ∧
    check_convergence envA paramsA "aln.phy" "-cat -gtr" 2 1 = ⟨.returned, []⟩ :=
  ⟨by decide, by decide, by decide⟩

/-- C2 counterexample: in `envC2` the minimum sample count (10) reaches
both `MAX_SAMPLE_SIZE = 10` and `MIN_SAMPLE_SIZE = 5`, yet
`check_convergence` takes the evaluation branch (whose diagnostics fail)
and plainly returns — the claimed hard-cap success exit is not taken. -/
theorem c2_hardcap_cex :
    (count_phase envC2 paramsC2 "aln.phy" "-cat -gtr" 2 1).1 = some [10, 10] ∧
    paramsC2.MAX_SAMPLE_SIZE ≤ 10 ∧ paramsC2.MIN_SAMPLE_SIZE ≤ 10 ∧
    check_convergence envC2 paramsC2 "aln.phy" "-cat -gtr" 2 1 = ⟨.returned, []⟩ :=
  ⟨by decide, by decide, by decide, by decide⟩

/-- C2 amended: the hard-cap success exit is reached exactly on the path
where the minimum sample count is at least `MAX_SAMPLE_SIZE` while still
below `MIN_SAMPLE_SIZE`; when the minimum also reaches `MIN_SAMPLE_SIZE`,
the evaluation branch runs first and ends the call instead. -/
theorem c2_hardcap_exit_only_below_min (env : ConvEnv) (P : Params)
    (infile pb_args : String) (chains processes : Nat) (counts : List Nat)
    (stops : List String) (m : Nat)
    (hgate : (slurm_active env && !liveness_ok env chains) = false)
    (hcp : count_phase env P infile pb_args chains processes = (some counts, stops))
    (hmin : counts.min? = some m)
    (hmax : P.MAX_SAMPLE_SIZE ≤ m) (hlt : m < P.MIN_SAMPLE_SIZE) :
    check_convergence env P infile pb_args chains processes = ⟨.exited 0, stops⟩ := by
  have hnle : ¬ P.MIN_SAMPLE_SIZE ≤ m := by omega
  simp [check_convergence, hgate, hcp, hmin, hnle, hmax]

/-- Witness for C2 amended: cap 10, evaluation threshold 20, both chains
at 10 samples. -/
theorem c2_hardcap_exit_only_below_min_witness :
    check_convergence envC2 { paramsC2 with MIN_SAMPLE_SIZE := 20 }
      "aln.phy" "-cat -gtr" 2 1 = ⟨.exited 0, []⟩ :=
  c2_hardcap_exit_only_below_min envC2 { paramsC2 with MIN_SAMPLE_SIZE := 20 }
    "aln.phy" "-cat -gtr" 2 1 [10, 10] [] 10
    (by decide) (by decide) (by decide) (by decide) (by decide)

/-- C3 counterexample: with every file missing, the sample-counting step
of the poll cycle raises `FileNotFoundError` (modelled as `none`) instead
of yielding a count of 0, and the whole cycle aborts with the exception. -/
theorem c3_missing_trace_cex :
    (count_phase envC3 paramsA "aln.phy" "-cat -gtr" 1 1).1 = none ∧
    (count_phase envC3 paramsA "aln.phy" "-cat -gtr" 1 1).1 ≠ some [0] ∧
    check_convergence envC3 paramsA "aln.phy" "-cat -gtr" 1 1 = ⟨.raised, []⟩ :=
  ⟨by decide, by decide, by decide⟩

/-- C3 amended: a missing `.trace` file for any chain makes the
sample-counting loop raise an uncaught exception, and (when the liveness
gate passes) `check_convergence` ends in that exception rather than
continuing the cycle. -/
theorem c3_missing_trace_raises (env : ConvEnv) (P : Params) (infile pb_args : String)
    (chains processes i : Nat)
    (hgate : (slurm_active env && !liveness_ok env chains) = false)
    (hi : i < chains)
    (hmiss : env.fs (generate_output_filename infile pb_args processes (i + 1) ++ ".trace")
      = none) :
    (count_phase env P infile pb_args chains processes).1 = none ∧
    check_convergence env P infile pb_args chains processes =
      ⟨.raised, (count_phase env P infile pb_args chains processes).2⟩ := by
  have h1 : (count_phase env P infile pb_args chains processes).1 = none :=
    count_go_missing env P infile pb_args processes i hmiss _ _ _ (List.mem_range.mpr hi)
  refine ⟨h1, ?_⟩
  rcases hcp : count_phase env P infile pb_args chains processes with ⟨o, stops⟩
  rw [hcp] at h1
  have ho : o = none := h1
  subst ho
  simp [check_convergence, hgate, hcp]

/-- Witness for C3 amended at the all-files-missing environment. -/
theorem c3_missing_trace_raises_witness :
    (count_phase envC3 paramsA "aln.phy" "-cat -gtr" 1 1).1 = none ∧
    check_convergence envC3 paramsA "aln.phy" "-cat -gtr" 1 1 =
      ⟨.raised, (count_phase envC3 paramsA "aln.phy" "-cat -gtr" 1 1).2⟩ :=
  c3_missing_trace_raises envC3 paramsA "aln.phy" "-cat -gtr" 1 1 0
    (by decide) (by decide) rfl

/-- C4 counterexample: a present-but-non-numeric `maxdiff` field makes the
report parsing raise `ValueError` (modelled as `none`), so the cycle ends
in an uncaught exception instead of a not-converged decision. -/
theorem c4_nonnumeric_maxdiff_cex :
    BP_res (pySplitLines envC4.bpcompOut) paramsA.BPCOMP_MAXDIFF = none ∧
    check_convergence envC4 paramsA "aln.phy" "-cat -gtr" 2 1 = ⟨.raised, []⟩ :=
  ⟨by decide, by decide⟩

/-- C4 amended: an ABSENT `maxdiff` line leaves the pairwise check failing
(`bp_res = 0`) without an exception, and a `tracecomp` line with fewer than
two fields is skipped without an exception; only non-numeric or missing
fields on an otherwise well-formed line raise. -/
theorem c4_absent_fields_fail_soft :
    (∀ (lines : List String) (t : Rat),
        (∀ l ∈ lines, pyStartsWith l "maxdiff" = false) → BP_res lines t = some 0)
    ∧ (∀ (lines : List String) (effT relT : Rat),
        (∀ l ∈ lines, (pySplitWS (pyRstrip l)).length ≤ 1) →
          TR_stats lines effT relT = some (0, 0)) := by
  constructor
  · exact fun lines t h => BP_res_no_maxdiff t lines h
  · exact fun lines e r h => TR_stats_skip e r lines (fun l hl => Or.inl (h l hl))

/-- Witness for C4 amended on concrete report lines. -/
theorem c4_absent_fields_fail_soft_witness :
    BP_res ["bp computed"] (mkRat 3 10) = some 0 ∧
    TR_stats ["x"] 50 (mkRat 3 10) = some (0, 0) :=
  ⟨c4_absent_fields_fail_soft.1 ["bp computed"] (mkRat 3 10) (by decide),
   c4_absent_fields_fail_soft.2 ["x"] 50 (mkRat 3 10) (by decide)⟩

/-- C5: for every chain index `i ≥ 1`, `start_pb_jobs` issues the resume
command (sampler re-invoked on the existing output name, without the
alignment path) exactly when `<name>.trace` exists, and otherwise the
fresh-start command carrying the sampler arguments, the alignment path and
the output name. -/
theorem c5_resume_iff_trace_exists (ex : String → Bool) (infile pb_args : String)
    (processes i : Nat) (_hi : 1 ≤ i) :
    (ex (generate_output_filename infile pb_args processes i ++ ".trace") = true →
      start_command ex infile pb_args processes i =
        "srun --cpu_bind=v,threads -c 1 -n " ++ Nat.repr processes ++ " -o "
          ++ generate_output_filename infile pb_args processes i ++ ".out "
          ++ pb_command processes
          ++ generate_output_filename infile pb_args processes i ++ " &")
    ∧ (ex (generate_output_filename infile pb_args processes i ++ ".trace") = false →
      start_command ex infile pb_args processes i =
        "srun --cpu_bind=v,threads -c 1 -n " ++ Nat.repr processes ++ " -o "
          ++ generate_output_filename infile pb_args processes i ++ ".out "
          ++ pb_command processes ++ pb_args ++ " -d " ++ infile ++ " "
          ++ generate_output_filename infile pb_args processes i ++ " &") := by
  constructor <;> intro h <;> simp [start_command, h]

/-- Witness for C5 at chain 1 of `d/aln.phy` with two processes. -/
theorem c5_resume_iff_trace_exists_witness :
    start_command (fun _ => true) "d/aln.phy" "-cat -gtr" 2 1 =
      "srun --cpu_bind=v,threads -c 1 -n 2 -o d/aln_cat_gtr_2_chain1.out pb_mpi d/aln_cat_gtr_2_chain1 &"
    ∧ start_command (fun _ => false) "d/aln.phy" "-cat -gtr" 2 1 =
      "srun --cpu_bind=v,threads -c 1 -n 2 -o d/aln_cat_gtr_2_chain1.out pb_mpi -cat -gtr -d d/aln.phy d/aln_cat_gtr_2_chain1 &" :=
  ⟨((c5_resume_iff_trace_exists (fun _ => true) "d/aln.phy" "-cat -gtr" 2 1
      (by decide)).1 rfl).trans (by decide),
   ((c5_resume_iff_trace_exists (fun _ => false) "d/aln.phy" "-cat -gtr" 2 1
      (by decide)).2 rfl).trans (by decide)⟩

/-- C6: `generate_output_filename` is a pure function (so equal inputs give
the identical name), and for every chain index `i ≥ 1` the name is exactly
the chain-0 group name followed by `_chain` and the decimal rendering of
`i`. -/
theorem c6_chain_suffix (filepath pb_args : String) (processes i : Nat) (hi : 1 ≤ i) :
    generate_output_filename filepath pb_args processes i =
      generate_output_filename filepath pb_args processes 0 ++ "_chain" ++ Nat.repr i := by
  have h0 : ¬ i = 0 := by omega
  simp [generate_output_filename, h0]

/-- Witness for C6 at a concrete input. -/
theorem c6_chain_suffix_witness :
    generate_output_filename "d/aln.phy" "-cat -gtr" 2 1 =
      generate_output_filename "d/aln.phy" "-cat -gtr" 2 0 ++ "_chain" ++ Nat.repr 1 :=
  c6_chain_suffix "d/aln.phy" "-cat -gtr" 2 1 (by decide)

/-- C9 counterexample: with 2 chains, `SLURM_NTASKS = 5` and a requested
process count of 1, the adjusted count is `5 // 2 = 2` and the product
`2 × 2 = 4` differs from the allocated 5 tasks, refuting
`processes × chains = n`. -/
theorem c9_product_cex : adjust_processes 1 2 (some 5) * 2 ≠ 5 := by decide

/-- C9 amended: when `SLURM_NTASKS = n` is present, the requested count is
kept unchanged when it equals `chains * n`, and otherwise replaced by
`⌊n / chains⌋`, so the product `processes × chains` equals `n` exactly when
`chains` divides `n`. -/
theorem c9_adjust_floor (p c n : Nat) :
    (p = c * n → adjust_processes p c (some n) = p) ∧
    (p ≠ c * n →
      adjust_processes p c (some n) = n / c ∧
      (adjust_processes p c (some n) * c = n ↔ c ∣ n)) := by
  constructor
  · intro h; simp [adjust_processes, h]
  · intro h
    have hval : adjust_processes p c (some n) = n / c := by simp [adjust_processes, h]
    refine ⟨hval, ?_⟩
    rw [hval]
    constructor
    · intro heq; exact ⟨n / c, by rw [Nat.mul_comm c (n / c)]; exact heq.symm⟩
    · intro hdvd; exact Nat.div_mul_cancel hdvd

/-- Witness for C9 amended at `p = 8`, `chains = 2`, `n = 5`. -/
theorem c9_adjust_floor_witness :
    adjust_processes 8 2 (some 5) = 2 ∧ (adjust_processes 8 2 (some 5) * 2 = 5 ↔ 2 ∣ 5) :=
  (c9_adjust_floor 8 2 5).2 (by decide)

/-- C7 counterexample: when no non-empty status appears within the first
60 attempts but one appears at attempt 61, the confirmation wait succeeds
at attempt 61 instead of exiting with the launch-timeout code — the loop
makes up to 61 attempts, not 60. -/
theorem c7_sixty_attempts_cex :
    confirm_loop statusC7 60 = ConfirmResult.started 61 ∧
    ConfirmResult.started 61 ≠ ConfirmResult.exited 3 :=
  ⟨by decide, by decide⟩

/-- C7 amended: the confirmation wait polls the scheduler up to 61 times
(the `waited > max_wait` test runs after the 61st query) and calls
`sys.exit(3)` exactly when every one of attempts 1..61 yields a blank
first status line; any non-blank line among them ends the wait
successfully. -/
theorem c7_confirm_timeout_iff (status : Nat → String) :
    confirm_loop status 60 = ConfirmResult.exited 3 ↔
      ∀ k, 1 ≤ k → k ≤ 61 → pyRstrip (firstLine (status k)) = "" := by
  rw [confirm_loop, confirm_go_exit_iff status 60 1]

/-- Witness for C7 amended: an always-silent scheduler forces exit 3. -/
theorem c7_confirm_timeout_iff_witness :
    confirm_loop (fun _ => "") 60 = ConfirmResult.exited 3 :=
  (c7_confirm_timeout_iff (fun _ => "")).mpr (fun _ _ _ => by decide)

/-- C8 counterexample: a realistic `sacct` line containing `RUNNING` as a
substring (but not equal to the bare marker) is classified as running, so
the classification is by substring, not by exact match. -/
theorem c8_substring_not_exact_cex :
    chain_is_running lineC8 = true ∧ pyRstrip (firstLine lineC8) ≠ "RUNNING" :=
  ⟨by decide, by decide⟩

/-- C8 amended: a chain counts as running iff its first status line is
non-blank AND contains the running marker as a substring; with a scheduler
job id present, any chain classified as not running makes
`check_convergence` exit immediately with code 4, issuing no stop command
and no retry. -/
theorem c8_liveness_substring_exit4 :
    (∀ out : String, chain_is_running out = true ↔
        (pyRstrip (firstLine out) ≠ "" ∧ pyContains (firstLine out) "RUNNING" = true))
    ∧ (∀ (env : ConvEnv) (P : Params) (infile pb_args : String) (chains processes : Nat),
        slurm_active env = true →
        (∃ k, k < chains ∧ chain_is_running (env.sacctOut k) = false) →
        check_convergence env P infile pb_args chains processes = ⟨.exited 4, []⟩) := by
  constructor
  · intro out
    simp [chain_is_running, Bool.and_eq_true, decide_eq_true_eq]
  · rintro env P infile pb_args chains processes hs ⟨k, hk, hdead⟩
    have hlive : liveness_ok env chains = false := by
      rw [Bool.eq_false_iff]
      intro hall
      rw [liveness_ok, List.all_eq_true] at hall
      have hkk := hall k (List.mem_range.mpr hk)
      rw [hdead] at hkk
      exact Bool.false_ne_true hkk
    simp [check_convergence, hs, hlive]

/-- Witness for C8 amended: one `COMPLETED` chain under Slurm. -/
theorem c8_liveness_substring_exit4_witness :
    check_convergence envC8 paramsA "aln.phy" "-cat -gtr" 2 1 = ⟨.exited 4, []⟩ :=
  c8_liveness_substring_exit4.2 envC8 paramsA "aln.phy" "-cat -gtr" 2 1 (by decide)
    ⟨0, by decide, by decide⟩

/-- C10: when the `tracecomp` output has no parseable parameter row (every
line has at most one field or is the `name` header), both counters stay at
0, the per-parameter criterion holds vacuously, and a passing `maxdiff`
(`bp_res = 1`) makes `check_convergence` stop every chain and exit 0. -/
theorem c10_no_rows_maxdiff_alone (env : ConvEnv) (P : Params) (infile pb_args : String)
    (chains processes : Nat) (counts : List Nat) (stops : List String) (m : Nat)
    (hgate : (slurm_active env && !liveness_ok env chains) = false)
    (hcp : count_phase env P infile pb_args chains processes = (some counts, stops))
    (hmin : counts.min? = some m) (hm : P.MIN_SAMPLE_SIZE ≤ m)
    (hbp : BP_res (pySplitLines env.bpcompOut) P.BPCOMP_MAXDIFF = some 1)
    (htr : ∀ l ∈ pySplitLines env.trcompOut, trSkipLine l) :
    TR_stats (pySplitLines env.trcompOut) P.TRCOMP_EFFSIZE P.TRCOMP_RELDIFF = some (0, 0) ∧
    check_convergence env P infile pb_args chains processes =
      ⟨.exited 0, stops ++ (List.range chains).map
        (fun k => "stoppb " ++ generate_output_filename infile pb_args processes (k + 1))⟩ := by
  have htr' := TR_stats_skip P.TRCOMP_EFFSIZE P.TRCOMP_RELDIFF _ htr
  refine ⟨htr', ?_⟩
  simp [check_convergence, hgate, hcp, hmin, hm, hbp, htr']

/-- Witness for C10: header-only `tracecomp` output, passing `maxdiff`. -/
theorem c10_no_rows_maxdiff_alone_witness :
    TR_stats (pySplitLines envC10.trcompOut) paramsA.TRCOMP_EFFSIZE paramsA.TRCOMP_RELDIFF
      = some (0, 0) ∧
    check_convergence envC10 paramsA "aln.phy" "-cat -gtr" 2 1 =
      ⟨.exited 0, [] ++ (List.range 2).map
        (fun k => "stoppb " ++ generate_output_filename "aln.phy" "-cat -gtr" 1 (k + 1))⟩ :=
  c10_no_rows_maxdiff_alone envC10 paramsA "aln.phy" "-cat -gtr" 2 1 [3, 3] [] 3
    (by decide) (by decide) (by decide) (by decide) (by decide) (by decide)

end PB

/-- Sanity checks pinning the string model to Python semantics
(`rstrip`, `re.split`, `splitlines`, `float`, `find`, `os.path`). -/
theorem PB.embedding_sanity_checks :
    PB.pyRstrip "abc  " = "abc" ∧
    PB.pySplitWS " a  bc " = ["", "a", "bc", ""] ∧
    PB.pySplitLines "a\nb\n" = ["a", "b"] ∧
    PB.pySplitLines "" = [] ∧
    PB.pyLineCount "a\nb" = 2 ∧
    PB.pyFloat? "0.05" = some (mkRat 1 20) ∧
    PB.pyFloat? "NA" = none ∧
    PB.pyFloat? "400" = some (mkRat 400 1) ∧
    PB.pyContains "ab RUNNING x" "RUNNING" = true ∧
    PB.pyStartsWith "maxdiff   0.05" "maxdiff" = true ∧
    PB.os_path_split "a/b/c.phy" = ("a/b", "c.phy") ∧
    PB.os_path_splitext "c.phy" = ("c", ".phy") ∧
    PB.os_path_splitext ".bashrc" = (".bashrc", "") ∧
    PB.generate_output_filename "d/aln.phy" "-cat -gtr" 2 3 = "d/aln_cat_gtr_2_chain3" := by
  decide
